import Mathlib

/-!
Verification of the Aurora executor health checker
(`src/python/twitter/aurora/executor/common/health_checker.py`) and of the
Thermos executor status-update state machine described by the specification
and exercised by `tests/python/twitter/mesos/executor/test_thermos_executor.py`.

The health checker is embedded directly from the Python source: its mutable
fields become a Lean structure, the constructor and each method become pure
state-transformers, and the background run loop becomes a fold over the list
of check results it would observe.
-/

namespace HealthChecker

/-- State of a `HealthCheckerThread` instance: the fields assigned in
`HealthCheckerThread.__init__` of `health_checker.py`.  `reason` is the
stored `_reason` (Python `None` becomes `Option.none`).  Intervals are
modelled as integers, which is enough to capture the sign comparisons the
code performs. -/
structure HealthCheckerThread where
  interval : Int
  initial_interval : Int
  current_consecutive_failures : Nat
  max_consecutive_failures : Nat
  dead : Bool
  healthy : Bool
  reason : Option String
deriving DecidableEq, Repr

/-- The `_initial_interval` computed by `HealthCheckerThread.__init__`:
the supplied `initial_interval_secs` when it is not `None`, and
`interval_secs * 2` otherwise. -/
def initial_interval_of (interval_secs : Int)
    (initial_interval_secs : Option Int) : Int :=
  match initial_interval_secs with
  | some i => i
  | none => interval_secs * 2

/-- `HealthCheckerThread.__init__`.  `check_result` is the pair the supplied
`health_checker` callable would return if invoked; the second component of
the result counts how many times the constructor actually invoked it
(the Python code calls `self._checker()` only in the `else` branch of
`if self._initial_interval > 0`). -/
def new (check_result : Bool × Option String) (interval_secs : Int)
    (initial_interval_secs : Option Int) (max_failures : Nat) :
    HealthCheckerThread × Nat :=
  if initial_interval_of interval_secs initial_interval_secs > 0 then
    ({ interval := interval_secs
       initial_interval := initial_interval_of interval_secs initial_interval_secs
       current_consecutive_failures := 0
       max_consecutive_failures := max_failures
       dead := false
       healthy := true
       reason := none }, 0)
  else
    ({ interval := interval_secs
       initial_interval := initial_interval_of interval_secs initial_interval_secs
       current_consecutive_failures := 0
       max_consecutive_failures := max_failures
       dead := false
       healthy := check_result.1
       reason := check_result.2 }, 1)

/-- `HealthCheckerThread._maybe_update_failure_count(is_healthy, reason)`:
on an unhealthy result the counter is incremented, and if it then exceeds
`max_consecutive_failures` the verdict latches unhealthy with the supplied
reason; a healthy result resets the counter. -/
def maybe_update_failure_count (s : HealthCheckerThread)
    (is_healthy : Bool) (reason : Option String) : HealthCheckerThread :=
  if !is_healthy then
    if s.current_consecutive_failures + 1 > s.max_consecutive_failures then
      { s with
          current_consecutive_failures := s.current_consecutive_failures + 1,
          healthy := false,
          reason := reason }
    else
      { s with
          current_consecutive_failures := s.current_consecutive_failures + 1 }
  else
    { s with current_consecutive_failures := 0 }

/-- Rendering of Python `'%s' % self._reason`: `None` prints as `"None"`. -/
def format_reason : Option String → String
  | none => "None"
  | some r => r

/-- The `failure_reason` property: returns a `FailureReason` wrapping the
formatted string when unhealthy, and (implicitly) `None` when healthy. -/
def failure_reason (s : HealthCheckerThread) : Option String :=
  if !s.healthy then some ("Failed health check! " ++ format_reason s.reason)
  else none

/-- `HealthCheckerThread.stop`: sets the `_dead` event. -/
def stop (s : HealthCheckerThread) : HealthCheckerThread :=
  { s with dead := true }

/-- The body of `HealthCheckerThread.run` after the initial sleep: while the
`_dead` event is not set, invoke the checker and fold its result into the
state with `_maybe_update_failure_count`.  `results` is the stream of
results the checker would produce at successive iterations. -/
def run_loop (s : HealthCheckerThread) :
    List (Bool × Option String) → HealthCheckerThread
  | [] => s
  | r :: rest =>
      if s.dead then s
      else run_loop (maybe_update_failure_count s r.1 r.2) rest

/-- Folding a list of check results into the state unconditionally (the run
loop when `stop` is never called). -/
def apply_checks (s : HealthCheckerThread)
    (rs : List (Bool × Option String)) : HealthCheckerThread :=
  rs.foldl (fun t p => maybe_update_failure_count t p.1 p.2) s

/-- `k` consecutive unhealthy check results, all carrying reason `r`. -/
def unhealthy_results (k : Nat) (r : Option String) :
    List (Bool × Option String) :=
  List.replicate k (false, r)

/-- A run of unhealthy check results carrying the given reasons. -/
def unhealthy_seq (rs : List (Option String)) : List (Bool × Option String) :=
  rs.map (fun x => (false, x))

/- Field-preservation facts about `_maybe_update_failure_count`. -/

end HealthChecker

namespace Executor

/-- Modelled from the spec: lifecycle states a task status update can carry
(`TaskLifecycleState` in the data model; the executor source
`thermos_executor.py` is not part of this tree, only its test suite is). -/
inductive TaskLifecycleState
  | STARTING
  | RUNNING
  | FINISHED
  | FAILED
  | KILLED
  | LOST
deriving DecidableEq, Repr

open TaskLifecycleState

/-- Modelled from the spec: terminal states are FINISHED, FAILED, KILLED and
LOST; STARTING and RUNNING are not terminal. -/
def isTerminal : TaskLifecycleState → Bool
  | FINISHED => true
  | FAILED => true
  | KILLED => true
  | LOST => true
  | _ => false

/-- Modelled from the spec: the phases of the executor state machine of
§4.2 (`NEW → INITIALIZING → RUNNING → terminal`), whose implementation
(`thermos_executor.py`) is absent from this tree. -/
inductive ExecPhase
  | NEW
  | INITIALIZING
  | RUNNING
  | DONE
deriving DecidableEq, Repr

/-- Modelled from the spec: the observable state of one executor instance —
its phase, the one-shot abort flag, the one-shot kill-forwarded flag, and
the list of status updates sent to the driver so far, in order. -/
structure ExecState where
  phase : ExecPhase
  abort : Bool
  kill_forwarded : Bool
  updates : List TaskLifecycleState
deriving DecidableEq, Repr

/-- Modelled from the spec: the external events the executor reacts to —
`launchTask`, `killTask`, completion of the asynchronous
initialize/start sequence (`ok = false` when `initialize()`/`start()`
raises a task error), and the Task Runner reaching a terminal condition
observed by the Status Manager (already mapped to a lifecycle state). -/
inductive Event
  | launchTask
  | killTask
  | initComplete (ok : Bool)
  | runnerExit (t : TaskLifecycleState)
deriving DecidableEq, Repr

/-- Modelled from the spec: the executor state before any task has been
assigned. -/
def execInit : ExecState :=
  { phase := ExecPhase.NEW
    abort := false
    kill_forwarded := false
    updates := [] }

/-- Modelled from the spec (§4.2, `thermos_executor.py` being absent from
this tree): one executor transition.  `launchTask` is honoured only once
and immediately reports STARTING; `killTask` during initialization sets the
abort flag, and while running forwards at most one kill to the runner; when
the initialize/start sequence completes, an abort observed at that point
terminates with KILLED before RUNNING is ever sent, a raised task error
terminates with FAILED, and otherwise RUNNING is reported; a terminal
condition observed by the Status Manager while running produces the single
terminal update.  Events that do not match the current phase are ignored. -/
def step (s : ExecState) (e : Event) : ExecState :=
  match e with
  | Event.launchTask =>
      if s.phase = ExecPhase.NEW then
        { s with phase := ExecPhase.INITIALIZING, updates := s.updates ++ [STARTING] }
      else s
  | Event.killTask =>
      if s.phase = ExecPhase.INITIALIZING then
        { s with abort := true }
      else if s.phase = ExecPhase.RUNNING then
        { s with kill_forwarded := true }
      else s
  | Event.initComplete ok =>
      if s.phase = ExecPhase.INITIALIZING then
        if s.abort then
          { s with phase := ExecPhase.DONE, updates := s.updates ++ [KILLED] }
        else if ok then
          { s with phase := ExecPhase.RUNNING, updates := s.updates ++ [RUNNING] }
        else
          { s with phase := ExecPhase.DONE, updates := s.updates ++ [FAILED] }
      else s
  | Event.runnerExit t =>
      if s.phase = ExecPhase.RUNNING ∧ isTerminal t then
        { s with phase := ExecPhase.DONE, updates := s.updates ++ [t] }
      else s

/-- Modelled from the spec: the executor state after processing a sequence
of external events from the initial state. -/
def run_events (es : List Event) : ExecState :=
  es.foldl step execInit

/-- The phase/updates correspondence maintained by every transition. -/
def ExecInv (s : ExecState) : Prop :=
  (s.phase = ExecPhase.NEW ∧ s.updates = [])
  ∨ (s.phase = ExecPhase.INITIALIZING ∧ s.updates = [STARTING])
  ∨ (s.phase = ExecPhase.RUNNING ∧ s.updates = [STARTING, RUNNING])
  ∨ (s.phase = ExecPhase.DONE ∧ ∃ t, isTerminal t = true
      ∧ (s.updates = [STARTING, RUNNING, t] ∨ s.updates = [STARTING, t]))

/-- The states reachable once `killTask` has been observed during
initialization: the abort flag is latched, and the task either is still
initializing with only STARTING reported, or has been unwound to KILLED
with RUNNING never reported. -/
def AbortedInv (s : ExecState) : Prop :=
  s.abort = true
  ∧ ((s.phase = ExecPhase.INITIALIZING ∧ s.updates = [STARTING])
      ∨ (s.phase = ExecPhase.DONE ∧ s.updates = [STARTING, KILLED]))

end Executor

namespace HealthChecker

lemma mufc_dead (s : HealthCheckerThread) (b : Bool) (r : Option String) :
    (maybe_update_failure_count s b r).dead = s.dead := by
  unfold maybe_update_failure_count
  split
  · split <;> rfl
  · rfl

lemma mufc_max (s : HealthCheckerThread) (b : Bool) (r : Option String) :
    (maybe_update_failure_count s b r).max_consecutive_failures
      = s.max_consecutive_failures := by
  unfold maybe_update_failure_count
  split
  · split <;> rfl
  · rfl

lemma mufc_true (s : HealthCheckerThread) (r : Option String) :
    maybe_update_failure_count s true r
      = { s with current_consecutive_failures := 0 } := by
  rfl

lemma mufc_false_count (s : HealthCheckerThread) (r : Option String) :
    (maybe_update_failure_count s false r).current_consecutive_failures
      = s.current_consecutive_failures + 1 := by
  unfold maybe_update_failure_count
  simp only [Bool.not_false, if_true]
  split <;> rfl

lemma mufc_false_keep (s : HealthCheckerThread) (r : Option String)
    (h : s.current_consecutive_failures + 1 ≤ s.max_consecutive_failures) :
    maybe_update_failure_count s false r
      = { s with
            current_consecutive_failures := s.current_consecutive_failures + 1 } := by
  unfold maybe_update_failure_count
  simp only [Bool.not_false, if_true]
  rw [if_neg]
  omega

lemma mufc_false_flip (s : HealthCheckerThread) (r : Option String)
    (h : s.max_consecutive_failures < s.current_consecutive_failures + 1) :
    maybe_update_failure_count s false r
      = { s with
            current_consecutive_failures := s.current_consecutive_failures + 1,
            healthy := false,
            reason := r } := by
  unfold maybe_update_failure_count
  simp only [Bool.not_false, if_true]
  rw [if_pos]
  omega

lemma mufc_healthy_mono (s : HealthCheckerThread) (b : Bool) (r : Option String)
    (h : s.healthy = false) :
    (maybe_update_failure_count s b r).healthy = false := by
  unfold maybe_update_failure_count
  split
  · split
    · rfl
    · exact h
  · exact h

/- Behaviour of the loop over runs of check results. -/

lemma apply_checks_nil (s : HealthCheckerThread) : apply_checks s [] = s := rfl

lemma apply_checks_cons (s : HealthCheckerThread) (p : Bool × Option String)
    (rs : List (Bool × Option String)) :
    apply_checks s (p :: rs) = apply_checks (maybe_update_failure_count s p.1 p.2) rs := rfl

lemma run_loop_not_dead (s : HealthCheckerThread)
    (rs : List (Bool × Option String)) (hd : s.dead = false) :
    run_loop s rs = apply_checks s rs := by
  induction rs generalizing s with
  | nil => rfl
  | cons p rest ih =>
      rw [run_loop, apply_checks_cons, if_neg (by simp [hd])]
      exact ih _ (by rw [mufc_dead]; exact hd)

lemma apply_checks_healthy_mono (s : HealthCheckerThread)
    (rs : List (Bool × Option String)) (h : s.healthy = false) :
    (apply_checks s rs).healthy = false := by
  induction rs generalizing s with
  | nil => exact h
  | cons p rest ih =>
      rw [apply_checks_cons]
      exact ih _ (mufc_healthy_mono _ _ _ h)

lemma run_loop_healthy_mono (s : HealthCheckerThread)
    (rs : List (Bool × Option String)) (h : s.healthy = false) :
    (run_loop s rs).healthy = false := by
  induction rs generalizing s with
  | nil => exact h
  | cons p rest ih =>
      rw [run_loop]
      split
      · exact h
      · exact ih _ (mufc_healthy_mono _ _ _ h)

lemma apply_checks_pair (s : HealthCheckerThread) (b : Bool) (r : Option String)
    (rs : List (Bool × Option String)) :
    apply_checks s ((b, r) :: rs)
      = apply_checks (maybe_update_failure_count s b r) rs := rfl

lemma unhealthy_results_succ (k : Nat) (r : Option String) :
    unhealthy_results (k + 1) r = (false, r) :: unhealthy_results k r := by
  rw [unhealthy_results, unhealthy_results, List.replicate_succ]

lemma unhealthy_seq_cons (a : Option String) (l : List (Option String)) :
    unhealthy_seq (a :: l) = (false, a) :: unhealthy_seq l := rfl

lemma apply_unhealthy_count (s : HealthCheckerThread) (k : Nat) (r : Option String) :
    (apply_checks s (unhealthy_results k r)).current_consecutive_failures
      = s.current_consecutive_failures + k := by
  induction k generalizing s with
  | zero => rfl
  | succ j ih =>
      rw [unhealthy_results_succ, apply_checks_pair, ih, mufc_false_count]
      omega

lemma apply_unhealthy_healthy_keep (s : HealthCheckerThread) (k : Nat)
    (r : Option String)
    (h : s.current_consecutive_failures + k ≤ s.max_consecutive_failures) :
    (apply_checks s (unhealthy_results k r)).healthy = s.healthy := by
  induction k generalizing s with
  | zero => rfl
  | succ j ih =>
      rw [unhealthy_results_succ, apply_checks_pair]
      rw [mufc_false_keep s r (by omega)]
      refine ih _ ?_
      show s.current_consecutive_failures + 1 + j ≤ s.max_consecutive_failures
      omega

lemma apply_unhealthy_flip (s : HealthCheckerThread) (j : Nat) (r : Option String)
    (h : s.max_consecutive_failures < s.current_consecutive_failures + j + 1) :
    (apply_checks s (unhealthy_results (j + 1) r)).healthy = false := by
  induction j generalizing s with
  | zero =>
      rw [unhealthy_results_succ, apply_checks_pair]
      rw [mufc_false_flip s r (by omega)]
      rfl
  | succ i ih =>
      rw [unhealthy_results_succ, apply_checks_pair]
      refine ih _ ?_
      rw [mufc_false_count, mufc_max]
      omega

lemma apply_unhealthy_last_reason (s : HealthCheckerThread)
    (rs : List (Option String)) (r : Option String)
    (h : s.max_consecutive_failures < s.current_consecutive_failures + rs.length + 1) :
    (apply_checks s (unhealthy_seq (rs ++ [r]))).reason = r := by
  induction rs generalizing s with
  | nil =>
      rw [List.nil_append, unhealthy_seq_cons, apply_checks_pair]
      simp only [List.length_nil] at h
      rw [mufc_false_flip s r (by omega)]
      rfl
  | cons a rest ih =>
      rw [List.cons_append, unhealthy_seq_cons, apply_checks_pair]
      refine ih _ ?_
      rw [mufc_false_count, mufc_max]
      simp only [List.length_cons] at h
      omega


/- Facts about the constructor. -/

lemma new_pos (cr : Bool × Option String) (i : Int) (iio : Option Int) (N : Nat)
    (h : initial_interval_of i iio > 0) :
    new cr i iio N
      = ({ interval := i
           initial_interval := initial_interval_of i iio
           current_consecutive_failures := 0
           max_consecutive_failures := N
           dead := false
           healthy := true
           reason := none }, 0) := by
  unfold new
  rw [if_pos h]

lemma new_nonpos (cr : Bool × Option String) (i : Int) (iio : Option Int) (N : Nat)
    (h : ¬ initial_interval_of i iio > 0) :
    new cr i iio N
      = ({ interval := i
           initial_interval := initial_interval_of i iio
           current_consecutive_failures := 0
           max_consecutive_failures := N
           dead := false
           healthy := cr.1
           reason := cr.2 }, 1) := by
  unfold new
  rw [if_neg h]

lemma new_fst_initial_interval (cr : Bool × Option String) (i : Int)
    (iio : Option Int) (N : Nat) :
    (new cr i iio N).1.initial_interval = initial_interval_of i iio := by
  unfold new
  split <;> rfl

/-- Claim C1: for every `max_consecutive_failures = N ≥ 0`, a monitor whose
verdict is healthy and whose consecutive-failure counter is zero remains
healthy through any `k ≤ N` consecutive unhealthy results of the run loop
and flips to unhealthy on the `(N+1)`-th consecutive unhealthy result (the
counter must exceed, not merely reach, the threshold); and a single healthy
result, from any state whatsoever, resets the consecutive-failure counter
to zero. -/
theorem claim_C1_threshold_exact (N k : Nat) (r r2 : Option String)
    (s : HealthCheckerThread)
    (hmax : s.max_consecutive_failures = N)
    (hh : s.healthy = true)
    (hc : s.current_consecutive_failures = 0)
    (hd : s.dead = false)
    (hk : k ≤ N) :
    (run_loop s (unhealthy_results k r)).healthy = true
    ∧ (run_loop s (unhealthy_results (N + 1) r)).healthy = false
    ∧ ∀ s2 : HealthCheckerThread,
        (maybe_update_failure_count s2 true r2).current_consecutive_failures
          = 0 := by
  refine ⟨?_, ?_, ?_⟩
  · rw [run_loop_not_dead _ _ hd,
        apply_unhealthy_healthy_keep _ _ _ (by omega)]
    exact hh
  · rw [run_loop_not_dead _ _ hd]
    exact apply_unhealthy_flip s N r (by omega)
  · intro s2
    rw [mufc_true]

/-- Witness for C1 at `N = 2`: two consecutive failures leave the monitor
healthy, the third flips it, and a healthy result resets the counter. -/
theorem claim_C1_witness :
    (run_loop ((new (true, none) 1 (some 1) 2).1)
        (unhealthy_results 2 (some "die"))).healthy = true
    ∧ (run_loop ((new (true, none) 1 (some 1) 2).1)
        (unhealthy_results 3 (some "die"))).healthy = false
    ∧ (maybe_update_failure_count ((new (true, none) 1 (some 1) 2).1) true
        none).current_consecutive_failures = 0 := by
  have h := claim_C1_threshold_exact 2 2 (some "die") none
    ((new (true, none) 1 (some 1) 2).1) rfl rfl rfl rfl (by omega)
  exact ⟨h.1, h.2.1, h.2.2 _⟩

/-- Claim C3: the unhealthy verdict is sticky — once `healthy` is false,
no further check result (healthy or not), no further run of the loop, and
no call to `stop` ever makes it true again. -/
theorem claim_C3_sticky_unhealthy (s : HealthCheckerThread) (b : Bool)
    (r : Option String) (rs : List (Bool × Option String))
    (h : s.healthy = false) :
    (maybe_update_failure_count s b r).healthy = false
    ∧ (stop s).healthy = false
    ∧ (run_loop s rs).healthy = false
    ∧ (run_loop (stop s) rs).healthy = false :=
  ⟨mufc_healthy_mono s b r h, h, run_loop_healthy_mono s rs h,
    run_loop_healthy_mono (stop s) rs h⟩

/-- Witness for C3 on a monitor constructed already unhealthy
(`initial_interval = 0` with a failing check). -/
theorem claim_C3_witness :
    (maybe_update_failure_count ((new (false, some "bad") 1 (some 0) 0).1)
        true none).healthy = false
    ∧ (stop ((new (false, some "bad") 1 (some 0) 0).1)).healthy = false
    ∧ (run_loop ((new (false, some "bad") 1 (some 0) 0).1)
        [(true, none)]).healthy = false
    ∧ (run_loop (stop ((new (false, some "bad") 1 (some 0) 0).1))
        [(true, none)]).healthy = false :=
  claim_C3_sticky_unhealthy ((new (false, some "bad") 1 (some 0) 0).1) true
    none [(true, none)] rfl

/-- Claim C4: immediately after construction, a strictly positive
`initial_interval` yields a healthy verdict with no reason and zero checker
invocations, while `initial_interval = 0` yields exactly one synchronous
checker invocation whose result is adopted as the verdict. -/
theorem claim_C4_initial_verdict (cr : Bool × Option String) (i : Int)
    (iio : Option Int) (N : Nat) :
    ((new cr i iio N).1.initial_interval > 0 →
        (new cr i iio N).1.healthy = true
        ∧ (new cr i iio N).1.reason = none
        ∧ (new cr i iio N).2 = 0)
    ∧ ((new cr i iio N).1.initial_interval = 0 →
        (new cr i iio N).2 = 1
        ∧ (new cr i iio N).1.healthy = cr.1
        ∧ (new cr i iio N).1.reason = cr.2) := by
  constructor
  · intro hpos
    rw [new_fst_initial_interval] at hpos
    rw [new_pos cr i iio N hpos]
    exact ⟨rfl, rfl, rfl⟩
  · intro h0
    rw [new_fst_initial_interval] at h0
    rw [new_nonpos cr i iio N (by omega)]
    exact ⟨rfl, rfl, rfl⟩

/-- Witness for C4: one construction with a positive initial interval and
one with a zero initial interval and a failing check. -/
theorem claim_C4_witness :
    ((new (true, none) 5 (some 3) 0).1.healthy = true
      ∧ (new (true, none) 5 (some 3) 0).1.reason = none
      ∧ (new (true, none) 5 (some 3) 0).2 = 0)
    ∧ ((new (false, some "sick") 5 (some 0) 0).2 = 1
      ∧ (new (false, some "sick") 5 (some 0) 0).1.healthy = false
      ∧ (new (false, some "sick") 5 (some 0) 0).1.reason = some "sick") :=
  ⟨(claim_C4_initial_verdict (true, none) 5 (some 3) 0).1 (by decide),
    (claim_C4_initial_verdict (false, some "sick") 5 (some 0) 0).2 (by decide)⟩

/-- Claim C6: `healthy` returns the latched flag, and `failure_reason`
returns the formatted reason string exactly when the verdict is unhealthy
and nothing when it is healthy. -/
theorem claim_C6_failure_reason (s : HealthCheckerThread) :
    failure_reason s
      = (if s.healthy = true then none
         else some ("Failed health check! " ++ format_reason s.reason))
    ∧ (failure_reason s = none ↔ s.healthy = true) := by
  unfold failure_reason
  cases hb : s.healthy <;> simp

/-- Claim C7: `stop` is idempotent (a second `stop` changes nothing), the
run loop processes no further check once stopped, stopping commutes with an
in-flight check update (it does not interrupt it), and `stop` changes
nothing but the one-shot dead signal. -/
theorem claim_C7_stop_idempotent (s : HealthCheckerThread) (b : Bool)
    (r : Option String) (rs : List (Bool × Option String)) :
    stop (stop s) = stop s
    ∧ run_loop (stop s) rs = stop s
    ∧ stop (maybe_update_failure_count s b r)
        = maybe_update_failure_count (stop s) b r
    ∧ (stop s).healthy = s.healthy
    ∧ (stop s).reason = s.reason
    ∧ (stop s).current_consecutive_failures
        = s.current_consecutive_failures := by
  refine ⟨rfl, ?_, ?_, rfl, rfl, rfl⟩
  · cases rs with
    | nil => rfl
    | cons p rest => rfl
  · cases b with
    | true =>
        rw [mufc_true s r, mufc_true (stop s) r]
        rfl
    | false =>
        by_cases hc : s.current_consecutive_failures + 1
            > s.max_consecutive_failures
        · rw [mufc_false_flip s r hc, mufc_false_flip (stop s) r
            (by show s.max_consecutive_failures
                  < s.current_consecutive_failures + 1
                omega)]
          rfl
        · rw [mufc_false_keep s r (by omega),
              mufc_false_keep (stop s) r
                (by show s.current_consecutive_failures + 1
                      ≤ s.max_consecutive_failures
                    omega)]
          rfl

/-- Witness for C7 at a concrete freshly constructed monitor. -/
theorem claim_C7_witness :
    stop (stop ((new (true, none) 1 (some 1) 0).1))
      = stop ((new (true, none) 1 (some 1) 0).1)
    ∧ run_loop (stop ((new (true, none) 1 (some 1) 0).1))
        [(false, some "x")]
      = stop ((new (true, none) 1 (some 1) 0).1)
    ∧ stop (maybe_update_failure_count ((new (true, none) 1 (some 1) 0).1)
        false (some "x"))
      = maybe_update_failure_count (stop ((new (true, none) 1 (some 1) 0).1))
        false (some "x") :=
  have h := claim_C7_stop_idempotent ((new (true, none) 1 (some 1) 0).1)
    false (some "x") [(false, some "x")]
  ⟨h.1, h.2.1, h.2.2.1⟩

/-- Claim C8: when no `initial_interval_secs` is supplied the delay before
the first check is exactly `2 * interval_secs`, and a supplied value is
used unchanged. -/
theorem claim_C8_default_initial_interval (cr : Bool × Option String)
    (i v : Int) (N : Nat) :
    (new cr i none N).1.initial_interval = i * 2
    ∧ (new cr i (some v) N).1.initial_interval = v := by
  constructor <;> rw [new_fst_initial_interval] <;> rfl

/-- Claim C9: a strictly negative `initial_interval_secs` takes the
synchronous-check path — the constructor invokes the check once and adopts
its result — because the constructor branches on `initial_interval > 0`,
not on equality with zero. -/
theorem claim_C9_negative_initial_interval (cr : Bool × Option String)
    (i v : Int) (N : Nat) (h : v < 0) :
    (new cr i (some v) N).2 = 1
    ∧ (new cr i (some v) N).1.healthy = cr.1
    ∧ (new cr i (some v) N).1.reason = cr.2 := by
  have hng : ¬ initial_interval_of i (some v) > 0 := by
    show ¬ v > 0
    omega
  rw [new_nonpos cr i (some v) N hng]
  exact ⟨rfl, rfl, rfl⟩

/-- Witness for C9 at `initial_interval_secs = -1` with a failing check. -/
theorem claim_C9_witness :
    (new (false, some "down") 5 (some (-1)) 0).2 = 1
    ∧ (new (false, some "down") 5 (some (-1)) 0).1.healthy = false
    ∧ (new (false, some "down") 5 (some (-1)) 0).1.reason = some "down" :=
  claim_C9_negative_initial_interval (false, some "down") 5 (-1) 0 (by omega)

/-- Claim C10: after the verdict has latched unhealthy, a healthy result
still resets the counter to zero without restoring the verdict, and a
subsequent run of `max_consecutive_failures + 1` consecutive unhealthy
results leaves the verdict unhealthy and overwrites the stored reason with
the most recent failure's reason. -/
theorem claim_C10_post_latch (s : HealthCheckerThread)
    (r rlast : Option String) (rs : List (Option String))
    (hh : s.healthy = false)
    (hlen : rs.length = s.max_consecutive_failures) :
    (maybe_update_failure_count s true r).current_consecutive_failures = 0
    ∧ (maybe_update_failure_count s true r).healthy = false
    ∧ (apply_checks (maybe_update_failure_count s true r)
        (unhealthy_seq (rs ++ [rlast]))).healthy = false
    ∧ (apply_checks (maybe_update_failure_count s true r)
        (unhealthy_seq (rs ++ [rlast]))).reason = rlast := by
  refine ⟨?_, ?_, ?_, ?_⟩
  · rw [mufc_true]
  · rw [mufc_true]
    exact hh
  · exact apply_checks_healthy_mono _ _ (by rw [mufc_true]; exact hh)
  · refine apply_unhealthy_last_reason _ rs rlast ?_
    rw [mufc_true]
    show s.max_consecutive_failures < 0 + rs.length + 1
    omega

/-- Witness for C10 on a monitor latched unhealthy at construction with
threshold 1: a healthy reset then two failures re-derive the unhealthy
verdict with the newest reason. -/
theorem claim_C10_witness :
    (maybe_update_failure_count ((new (false, some "old") 1 (some 0) 1).1)
        true none).current_consecutive_failures = 0
    ∧ (maybe_update_failure_count ((new (false, some "old") 1 (some 0) 1).1)
        true none).healthy = false
    ∧ (apply_checks (maybe_update_failure_count
        ((new (false, some "old") 1 (some 0) 1).1) true none)
        (unhealthy_seq ([some "mid"] ++ [some "fresh"]))).healthy = false
    ∧ (apply_checks (maybe_update_failure_count
        ((new (false, some "old") 1 (some 0) 1).1) true none)
        (unhealthy_seq ([some "mid"] ++ [some "fresh"]))).reason
      = some "fresh" :=
  claim_C10_post_latch ((new (false, some "old") 1 (some 0) 1).1) none
    (some "fresh") [some "mid"] rfl rfl

end HealthChecker

namespace Executor

open TaskLifecycleState

lemma execInv_init : ExecInv execInit := Or.inl ⟨rfl, rfl⟩

lemma execInv_step (s : ExecState) (e : Event) (h : ExecInv s) :
    ExecInv (step s e) := by
  rcases h with ⟨hp, hu⟩ | ⟨hp, hu⟩ | ⟨hp, hu⟩ | ⟨hp, t, ht, hu⟩
  · cases e with
    | launchTask =>
        rw [step, if_pos hp]
        exact Or.inr (Or.inl ⟨rfl, by rw [hu]; rfl⟩)
    | killTask =>
        rw [step, if_neg (by rw [hp]; decide), if_neg (by rw [hp]; decide)]
        exact Or.inl ⟨hp, hu⟩
    | initComplete ok =>
        rw [step, if_neg (by rw [hp]; decide)]
        exact Or.inl ⟨hp, hu⟩
    | runnerExit t =>
        rw [step, if_neg (by rw [hp]; simp)]
        exact Or.inl ⟨hp, hu⟩
  · cases e with
    | launchTask =>
        rw [step, if_neg (by rw [hp]; decide)]
        exact Or.inr (Or.inl ⟨hp, hu⟩)
    | killTask =>
        rw [step, if_pos hp]
        exact Or.inr (Or.inl ⟨hp, hu⟩)
    | initComplete ok =>
        rw [step, if_pos hp]
        by_cases ha : s.abort
        · rw [if_pos ha]
          exact Or.inr (Or.inr (Or.inr ⟨rfl, KILLED, rfl, Or.inr (by rw [hu]; rfl)⟩))
        · rw [if_neg ha]
          cases ok with
          | true =>
              rw [if_pos rfl]
              exact Or.inr (Or.inr (Or.inl ⟨rfl, by rw [hu]; rfl⟩))
          | false =>
              rw [if_neg (by decide)]
              exact Or.inr (Or.inr (Or.inr ⟨rfl, FAILED, rfl, Or.inr (by rw [hu]; rfl)⟩))
    | runnerExit t =>
        rw [step, if_neg (by rw [hp]; simp)]
        exact Or.inr (Or.inl ⟨hp, hu⟩)
  · cases e with
    | launchTask =>
        rw [step, if_neg (by rw [hp]; decide)]
        exact Or.inr (Or.inr (Or.inl ⟨hp, hu⟩))
    | killTask =>
        rw [step, if_neg (by rw [hp]; decide), if_pos hp]
        exact Or.inr (Or.inr (Or.inl ⟨hp, hu⟩))
    | initComplete ok =>
        rw [step, if_neg (by rw [hp]; decide)]
        exact Or.inr (Or.inr (Or.inl ⟨hp, hu⟩))
    | runnerExit t =>
        rw [step]
        by_cases ht : isTerminal t = true
        · rw [if_pos ⟨hp, ht⟩]
          exact Or.inr (Or.inr (Or.inr ⟨rfl, t, ht, Or.inl (by rw [hu]; rfl)⟩))
        · rw [if_neg (by intro hc; exact ht hc.2)]
          exact Or.inr (Or.inr (Or.inl ⟨hp, hu⟩))
  · cases e with
    | launchTask =>
        rw [step, if_neg (by rw [hp]; decide)]
        exact Or.inr (Or.inr (Or.inr ⟨hp, t, ht, hu⟩))
    | killTask =>
        rw [step, if_neg (by rw [hp]; decide), if_neg (by rw [hp]; decide)]
        exact Or.inr (Or.inr (Or.inr ⟨hp, t, ht, hu⟩))
    | initComplete ok =>
        rw [step, if_neg (by rw [hp]; decide)]
        exact Or.inr (Or.inr (Or.inr ⟨hp, t, ht, hu⟩))
    | runnerExit t2 =>
        rw [step, if_neg (by rw [hp]; simp)]
        exact Or.inr (Or.inr (Or.inr ⟨hp, t, ht, hu⟩))

lemma execInv_foldl (es : List Event) (s : ExecState) (h : ExecInv s) :
    ExecInv (es.foldl step s) := by
  induction es generalizing s with
  | nil => exact h
  | cons e rest ih => exact ih _ (execInv_step s e h)

lemma execInv_run (es : List Event) : ExecInv (run_events es) :=
  execInv_foldl es execInit execInv_init


lemma countP_terminal_SRt (t : TaskLifecycleState) (ht : isTerminal t = true) :
    ([STARTING, RUNNING, t].countP (fun x => isTerminal x)) = 1 := by
  have h1 : isTerminal STARTING = false := rfl
  have h2 : isTerminal RUNNING = false := rfl
  simp [List.countP_cons, ht, h1, h2]

lemma countP_terminal_St (t : TaskLifecycleState) (ht : isTerminal t = true) :
    ([STARTING, t].countP (fun x => isTerminal x)) = 1 := by
  have h1 : isTerminal STARTING = false := rfl
  simp [List.countP_cons, ht, h1]

/-- Claim C2 (amended): for every interleaving of external events, the
sequence of status updates the driver has received is a prefix of
`[STARTING, RUNNING, <terminal>]` or is exactly `[STARTING, <terminal>]`
(the latter when the task is killed or fails during initialization) —
so STARTING is always first, RUNNING never precedes STARTING, and no
status follows a terminal one — the driver never receives more than one
terminal update, and once the task has completed it has received exactly
one terminal update. -/
theorem claim_C2_status_sequence (es : List Event) :
    ((run_events es).updates = []
      ∨ (run_events es).updates = [STARTING]
      ∨ (run_events es).updates = [STARTING, RUNNING]
      ∨ ∃ t, isTerminal t = true
          ∧ ((run_events es).updates = [STARTING, RUNNING, t]
             ∨ (run_events es).updates = [STARTING, t]))
    ∧ (run_events es).updates.countP (fun x => isTerminal x) ≤ 1
    ∧ ((run_events es).phase = ExecPhase.DONE →
        (run_events es).updates.countP (fun x => isTerminal x) = 1) := by
  rcases execInv_run es with ⟨hp, hu⟩ | ⟨hp, hu⟩ | ⟨hp, hu⟩ | ⟨hp, t, ht, hu⟩
  · refine ⟨Or.inl hu, by rw [hu]; simp, ?_⟩
    intro hd
    rw [hp] at hd
    exact absurd hd (by simp)
  · refine ⟨Or.inr (Or.inl hu), by rw [hu]; simp [List.countP_cons, isTerminal], ?_⟩
    intro hd
    rw [hp] at hd
    exact absurd hd (by simp)
  · refine ⟨Or.inr (Or.inr (Or.inl hu)),
      by rw [hu]; simp [List.countP_cons, isTerminal], ?_⟩
    intro hd
    rw [hp] at hd
    exact absurd hd (by simp)
  · rcases hu with hu | hu
    · exact ⟨Or.inr (Or.inr (Or.inr ⟨t, ht, Or.inl hu⟩)),
        by rw [hu, countP_terminal_SRt t ht],
        fun _ => by rw [hu, countP_terminal_SRt t ht]⟩
    · exact ⟨Or.inr (Or.inr (Or.inr ⟨t, ht, Or.inr hu⟩)),
        by rw [hu, countP_terminal_St t ht],
        fun _ => by rw [hu, countP_terminal_St t ht]⟩

/-- Witness for C2 on the run launch → successful start → normal exit:
the task completes and exactly one terminal update was delivered. -/
theorem claim_C2_witness :
    (run_events [Event.launchTask, Event.initComplete true,
        Event.runnerExit FINISHED]).updates.countP (fun x => isTerminal x)
      = 1 :=
  (claim_C2_status_sequence [Event.launchTask, Event.initComplete true,
    Event.runnerExit FINISHED]).2.2 rfl

/-- Counterexample to C2 as stated: a `killTask` that lands while
initialization is pending yields the update sequence
`[STARTING, KILLED]`, which is not a prefix of
`[STARTING, RUNNING, <terminal>]` for any terminal state (the prefixes of
that pattern are `[]`, `[STARTING]`, `[STARTING, RUNNING]` and the full
sequence). -/
theorem claim_C2_counterexample :
    (run_events [Event.launchTask, Event.killTask,
        Event.initComplete true]).updates = [STARTING, KILLED]
    ∧ ¬ ∃ t, isTerminal t = true
        ∧ ([STARTING, KILLED] = ([] : List TaskLifecycleState)
           ∨ [STARTING, KILLED] = [STARTING]
           ∨ [STARTING, KILLED] = [STARTING, RUNNING]
           ∨ [STARTING, KILLED] = [STARTING, RUNNING, t]) := by
  refine ⟨rfl, ?_⟩
  rintro ⟨t, ht, h | h | h | h⟩ <;> simp at h

/- Preservation of `AbortedInv` by every event. -/

lemma abortedInv_step (s : ExecState) (e : Event) (h : AbortedInv s) :
    AbortedInv (step s e) := by
  obtain ⟨ha, hc⟩ := h
  rcases hc with ⟨hp, hu⟩ | ⟨hp, hu⟩
  · cases e with
    | launchTask =>
        rw [step, if_neg (by rw [hp]; decide)]
        exact ⟨ha, Or.inl ⟨hp, hu⟩⟩
    | killTask =>
        rw [step, if_pos hp]
        exact ⟨rfl, Or.inl ⟨hp, hu⟩⟩
    | initComplete ok =>
        rw [step, if_pos hp, if_pos ha]
        exact ⟨ha, Or.inr ⟨rfl, by rw [hu]; rfl⟩⟩
    | runnerExit t =>
        rw [step, if_neg (by rw [hp]; simp)]
        exact ⟨ha, Or.inl ⟨hp, hu⟩⟩
  · cases e with
    | launchTask =>
        rw [step, if_neg (by rw [hp]; decide)]
        exact ⟨ha, Or.inr ⟨hp, hu⟩⟩
    | killTask =>
        rw [step, if_neg (by rw [hp]; decide), if_neg (by rw [hp]; decide)]
        exact ⟨ha, Or.inr ⟨hp, hu⟩⟩
    | initComplete ok =>
        rw [step, if_neg (by rw [hp]; decide)]
        exact ⟨ha, Or.inr ⟨hp, hu⟩⟩
    | runnerExit t =>
        rw [step, if_neg (by rw [hp]; simp)]
        exact ⟨ha, Or.inr ⟨hp, hu⟩⟩

lemma abortedInv_foldl (es : List Event) (s : ExecState) (h : AbortedInv s) :
    AbortedInv (es.foldl step s) := by
  induction es generalizing s with
  | nil => exact h
  | cons e rest ih => exact ih _ (abortedInv_step s e h)

lemma abortedInv_launch_kill :
    AbortedInv (run_events [Event.launchTask, Event.killTask]) :=
  ⟨rfl, Or.inl ⟨rfl, rfl⟩⟩

/-- Claim C5: a `killTask` issued while initialization is still pending
sets the abort flag, RUNNING is never reported afterwards, and whenever the
task completes its status updates are exactly `[STARTING, KILLED]`. -/
theorem claim_C5_kill_during_init (es : List Event) :
    (run_events ([Event.launchTask, Event.killTask] ++ es)).abort = true
    ∧ ((run_events ([Event.launchTask, Event.killTask] ++ es)).updates
          = [STARTING]
        ∨ (run_events ([Event.launchTask, Event.killTask] ++ es)).updates
          = [STARTING, KILLED])
    ∧ RUNNING ∉ (run_events ([Event.launchTask, Event.killTask] ++ es)).updates
    ∧ ((run_events ([Event.launchTask, Event.killTask] ++ es)).phase
          = ExecPhase.DONE →
        (run_events ([Event.launchTask, Event.killTask] ++ es)).updates
          = [STARTING, KILLED]) := by
  have hinv : AbortedInv (run_events ([Event.launchTask, Event.killTask] ++ es)) := by
    rw [run_events, List.foldl_append]
    exact abortedInv_foldl es _ abortedInv_launch_kill
  obtain ⟨ha, hc⟩ := hinv
  refine ⟨ha, ?_, ?_, ?_⟩
  · rcases hc with ⟨_, hu⟩ | ⟨_, hu⟩
    · exact Or.inl hu
    · exact Or.inr hu
  · rcases hc with ⟨_, hu⟩ | ⟨_, hu⟩ <;> rw [hu] <;> simp
  · intro hd
    rcases hc with ⟨hp, hu⟩ | ⟨hp, hu⟩
    · rw [hp] at hd
      exact absurd hd (by simp)
    · exact hu

/-- Witness for C5: launch, kill during initialization, then the
initialization sequence completes — the driver sees exactly
`[STARTING, KILLED]` and never RUNNING. -/
theorem claim_C5_witness :
    (run_events ([Event.launchTask, Event.killTask]
        ++ [Event.initComplete true])).abort = true
    ∧ (run_events ([Event.launchTask, Event.killTask]
        ++ [Event.initComplete true])).updates = [STARTING, KILLED] :=
  have h := claim_C5_kill_during_init [Event.initComplete true]
  ⟨h.1, h.2.2.2 rfl⟩

end Executor
